import Mathlib

set_option maxRecDepth 40000

/-!
Verification of the xcube repository excerpt.

The excerpt consists of three artifacts, each embedded below as concrete data:

* `src/test/webapi/ows/wmts/res/WMTSCapabilities-CRS84.xml` — a static OGC WMTS
  Capabilities XML test fixture, embedded as the value `wmtsCapabilitiesCRS84`
  of type `Capabilities`, a structured transliteration of the XML document
  (element text is kept verbatim as strings; purely numeric element text such
  as TileWidth is transliterated to `Nat`).
* `src/examples/notebooks/datastores/8_azure_blob_filesystem.ipynb` — a Jupyter
  notebook, embedded as the value `azureBlobNotebook` of type `Notebook`
  (cells with their verbatim source lines).
* `src/environment.yml` — a conda environment manifest followed by a
  documentation-build pip requirements list, embedded line by line as
  `condaEnvLines` and `docsRequirementsLines`.
-/

/-! ## Data model of the WMTS capabilities document -/

/-- One `TileMatrix` element of the `TileMatrixSet` (fixture lines 505-531).
`ScaleDenominator` and `TopLeftCorner` are kept as verbatim text; the four
integer-valued elements are transliterated to `Nat`. -/
structure TileMatrix where
  identifier : String
  scaleDenominator : String
  topLeftCorner : String
  tileWidth : Nat
  tileHeight : Nat
  matrixWidth : Nat
  matrixHeight : Nat
  deriving DecidableEq

/-- An `ows:BoundingBox` element with its `crs` attribute. -/
structure BoundingBox where
  crs : String
  lowerCorner : String
  upperCorner : String
  deriving DecidableEq

/-- A `TileMatrixSet` element of `Contents` (fixture lines 496-532). -/
structure TileMatrixSet where
  identifier : String
  title : String
  supportedCRS : String
  boundingBox : BoundingBox
  wellKnownScaleSet : String
  tileMatrices : List TileMatrix
  deriving DecidableEq

/-- A `ResourceURL` element of a `Layer`, with its three attributes. -/
structure ResourceURL where
  format : String
  resourceType : String
  template : String
  deriving DecidableEq

/-- A `Dimension` element of a `Layer` (time dimension with its values). -/
structure LayerDimension where
  identifier : String
  title : String
  uom : String
  defaultValue : String
  current : String
  values : List String
  deriving DecidableEq

/-- A `Style` element of a `Layer`, with its `isDefault` attribute. -/
structure Style where
  isDefault : String
  identifier : String
  deriving DecidableEq

/-- A `Layer` element of `Contents` (fixture lines 81-495).
`tileMatrixSetLinks` lists the `TileMatrixSet` text of each
`TileMatrixSetLink` child, in document order. -/
structure Layer where
  identifier : String
  title : String
  abstract : String
  wgs84LowerCorner : String
  wgs84UpperCorner : String
  style : Style
  format : String
  tileMatrixSetLinks : List String
  resourceURL : ResourceURL
  dimensions : List LayerDimension
  deriving DecidableEq

/-- The `Contents` element (fixture lines 80-533): layers and tile matrix
sets in document order. -/
structure Contents where
  layers : List Layer
  tileMatrixSets : List TileMatrixSet
  deriving DecidableEq

/-- A child `Theme` of a top-level `Theme` (the fixture nests themes exactly
one level deep; every child theme carries a single `LayerRef`). -/
structure SubTheme where
  identifier : String
  title : String
  abstract : String
  layerRef : String
  deriving DecidableEq

/-- A top-level `Theme` of the `Themes` element (fixture lines 534-635). -/
structure Theme where
  identifier : String
  title : String
  abstract : String
  subThemes : List SubTheme
  deriving DecidableEq

/-- The `ows:ServiceIdentification` element (fixture lines 3-15). -/
structure ServiceIdentification where
  title : String
  abstract : String
  keywords : List String
  serviceType : String
  serviceTypeVersion : String
  fees : String
  accessConstraints : String
  deriving DecidableEq

/-- The `ows:ServiceProvider` element (fixture lines 16-37), flattened. -/
structure ServiceProvider where
  providerName : String
  providerSiteHref : String
  individualName : String
  positionName : String
  phoneVoice : String
  phoneFacsimile : String
  deliveryPoint : String
  city : String
  administrativeArea : String
  postalCode : String
  country : String
  electronicMailAddress : String
  deriving DecidableEq

/-- An `ows:Get` binding inside an operation: the `xlink:href` attribute and
the single allowed `GetEncoding` constraint value. -/
structure OperationGet where
  href : String
  getEncoding : String
  deriving DecidableEq

/-- An `ows:Operation` element of `ows:OperationsMetadata`. -/
structure Operation where
  name : String
  gets : List OperationGet
  deriving DecidableEq

/-- The root `Capabilities` element with its namespace declarations and
attributes (fixture line 2) and all its children. -/
structure Capabilities where
  xmlnsDefault : String
  xmlnsOws : String
  xmlnsXlink : String
  xmlnsXsi : String
  xsiSchemaLocation : String
  version : String
  serviceIdentification : ServiceIdentification
  serviceProvider : ServiceProvider
  operationsMetadata : List Operation
  contents : Contents
  themes : List Theme
  serviceMetadataURLHref : String
  deriving DecidableEq

/-! ## The embedded fixture data: TileMatrixSet -/

/-- The single `TileMatrixSet` of `Contents` (fixture lines 496-532). -/
def worldCRS84QuadTMS : TileMatrixSet :=
  { identifier := "WorldCRS84Quad"
  , title := "CRS84 for the World"
  , supportedCRS := "urn:ogc:def:crs:OGC:1.3:CRS84"
  , boundingBox :=
      { crs := "urn:ogc:def:crs:OGC:1.3:CRS84"
      , lowerCorner := "-180 -90"
      , upperCorner := "180 90" }
  , wellKnownScaleSet := "urn:ogc:def:wkss:OGC:1.0:GoogleCRS84Quad"
  , tileMatrices :=
      [ { identifier := "7"
        , scaleDenominator := "2183915.093862179"
        , topLeftCorner := "-180 90"
        , tileWidth := 256, tileHeight := 256
        , matrixWidth := 256, matrixHeight := 128 }
      , { identifier := "8"
        , scaleDenominator := "1091957.5469310896"
        , topLeftCorner := "-180 90"
        , tileWidth := 256, tileHeight := 256
        , matrixWidth := 512, matrixHeight := 256 }
      , { identifier := "9"
        , scaleDenominator := "545978.7734655448"
        , topLeftCorner := "-180 90"
        , tileWidth := 256, tileHeight := 256
        , matrixWidth := 1024, matrixHeight := 512 } ] }

/-! ## The embedded fixture data: layers -/

def demoTimeValues : List String :=
  [ "2017-01-16T10:09:05.396602624/2017-01-16T10:09:38.271909120"
  , "2017-01-25T09:35:32.619965696/2017-01-25T09:36:09.500161024"
  , "2017-01-26T10:50:13.978930176/2017-01-26T10:50:19.393455616"
  , "2017-01-28T09:57:52.162121984/2017-01-28T09:58:30.538650112"
  , "2017-01-30T10:46:29.566899712/2017-01-30T10:46:38.106885120" ]

def demo1wTimeValues : List String :=
  [ "2017-01-22T00:00:00.000000000"
  , "2017-01-29T00:00:00.000000000"
  , "2017-02-05T00:00:00.000000000" ]

/-- The Layer element with identifier `demo.c2rcc_flags`. -/
def layer_demo_c2rcc_flags : Layer :=
  { identifier := "demo.c2rcc_flags"
  , title := "demo/C2RCC quality flags"
  , abstract := ""
  , wgs84LowerCorner := "0 50"
  , wgs84UpperCorner := "5 52.5"
  , style := { isDefault := "true", identifier := "Default" }
  , format := "image/png"
  , tileMatrixSetLinks := ["WorldCRS84Quad"]
  , resourceURL :=
      { format := "image/png"
      , resourceType := "tile"
      , template := "http://bibo/wmts/1.0.0/tile/demo/c2rcc_flags/WorldCRS84Quad/{TileMatrix}/{TileRow}/{TileCol}.png" }
  , dimensions :=
      [ { identifier := "time"
        , title := "time"
        , uom := "ISO8601"
        , defaultValue := "current"
        , current := "true"
        , values := demoTimeValues } ] }

/-- The Layer element with identifier `demo.conc_chl`. -/
def layer_demo_conc_chl : Layer :=
  { identifier := "demo.conc_chl"
  , title := "demo/Chlorophyll concentration"
  , abstract := ""
  , wgs84LowerCorner := "0 50"
  , wgs84UpperCorner := "5 52.5"
  , style := { isDefault := "true", identifier := "Default" }
  , format := "image/png"
  , tileMatrixSetLinks := ["WorldCRS84Quad"]
  , resourceURL :=
      { format := "image/png"
      , resourceType := "tile"
      , template := "http://bibo/wmts/1.0.0/tile/demo/conc_chl/WorldCRS84Quad/{TileMatrix}/{TileRow}/{TileCol}.png" }
  , dimensions :=
      [ { identifier := "time"
        , title := "time"
        , uom := "ISO8601"
        , defaultValue := "current"
        , current := "true"
        , values := demoTimeValues } ] }

/-- The Layer element with identifier `demo.conc_tsm`. -/
def layer_demo_conc_tsm : Layer :=
  { identifier := "demo.conc_tsm"
  , title := "demo/Total suspended matter dry weight concentration"
  , abstract := ""
  , wgs84LowerCorner := "0 50"
  , wgs84UpperCorner := "5 52.5"
  , style := { isDefault := "true", identifier := "Default" }
  , format := "image/png"
  , tileMatrixSetLinks := ["WorldCRS84Quad"]
  , resourceURL :=
      { format := "image/png"
      , resourceType := "tile"
      , template := "http://bibo/wmts/1.0.0/tile/demo/conc_tsm/WorldCRS84Quad/{TileMatrix}/{TileRow}/{TileCol}.png" }
  , dimensions :=
      [ { identifier := "time"
        , title := "time"
        , uom := "ISO8601"
        , defaultValue := "current"
        , current := "true"
        , values := demoTimeValues } ] }

/-- The Layer element with identifier `demo.kd489`. -/
def layer_demo_kd489 : Layer :=
  { identifier := "demo.kd489"
  , title := "demo/Irradiance attenuation coefficient at 489 nm"
  , abstract := ""
  , wgs84LowerCorner := "0 50"
  , wgs84UpperCorner := "5 52.5"
  , style := { isDefault := "true", identifier := "Default" }
  , format := "image/png"
  , tileMatrixSetLinks := ["WorldCRS84Quad"]
  , resourceURL :=
      { format := "image/png"
      , resourceType := "tile"
      , template := "http://bibo/wmts/1.0.0/tile/demo/kd489/WorldCRS84Quad/{TileMatrix}/{TileRow}/{TileCol}.png" }
  , dimensions :=
      [ { identifier := "time"
        , title := "time"
        , uom := "ISO8601"
        , defaultValue := "current"
        , current := "true"
        , values := demoTimeValues } ] }

/-- The Layer element with identifier `demo.quality_flags`. -/
def layer_demo_quality_flags : Layer :=
  { identifier := "demo.quality_flags"
  , title := "demo/Classification and quality flags"
  , abstract := ""
  , wgs84LowerCorner := "0 50"
  , wgs84UpperCorner := "5 52.5"
  , style := { isDefault := "true", identifier := "Default" }
  , format := "image/png"
  , tileMatrixSetLinks := ["WorldCRS84Quad"]
  , resourceURL :=
      { format := "image/png"
      , resourceType := "tile"
      , template := "http://bibo/wmts/1.0.0/tile/demo/quality_flags/WorldCRS84Quad/{TileMatrix}/{TileRow}/{TileCol}.png" }
  , dimensions :=
      [ { identifier := "time"
        , title := "time"
        , uom := "ISO8601"
        , defaultValue := "current"
        , current := "true"
        , values := demoTimeValues } ] }

/-- The Layer element with identifier `demo-1w.c2rcc_flags`. -/
def layer_demo_1w_c2rcc_flags : Layer :=
  { identifier := "demo-1w.c2rcc_flags"
  , title := "demo-1w/C2RCC quality flags"
  , abstract := ""
  , wgs84LowerCorner := "0 50"
  , wgs84UpperCorner := "5 52.5"
  , style := { isDefault := "true", identifier := "Default" }
  , format := "image/png"
  , tileMatrixSetLinks := ["WorldCRS84Quad"]
  , resourceURL :=
      { format := "image/png"
      , resourceType := "tile"
      , template := "http://bibo/wmts/1.0.0/tile/demo-1w/c2rcc_flags/WorldCRS84Quad/{TileMatrix}/{TileRow}/{TileCol}.png" }
  , dimensions :=
      [ { identifier := "time"
        , title := "time"
        , uom := "ISO8601"
        , defaultValue := "current"
        , current := "true"
        , values := demo1wTimeValues } ] }

/-- The Layer element with identifier `demo-1w.c2rcc_flags_stdev`. -/
def layer_demo_1w_c2rcc_flags_stdev : Layer :=
  { identifier := "demo-1w.c2rcc_flags_stdev"
  , title := "demo-1w/C2RCC quality flags"
  , abstract := ""
  , wgs84LowerCorner := "0 50"
  , wgs84UpperCorner := "5 52.5"
  , style := { isDefault := "true", identifier := "Default" }
  , format := "image/png"
  , tileMatrixSetLinks := ["WorldCRS84Quad"]
  , resourceURL :=
      { format := "image/png"
      , resourceType := "tile"
      , template := "http://bibo/wmts/1.0.0/tile/demo-1w/c2rcc_flags_stdev/WorldCRS84Quad/{TileMatrix}/{TileRow}/{TileCol}.png" }
  , dimensions :=
      [ { identifier := "time"
        , title := "time"
        , uom := "ISO8601"
        , defaultValue := "current"
        , current := "true"
        , values := demo1wTimeValues } ] }

/-- The Layer element with identifier `demo-1w.conc_chl`. -/
def layer_demo_1w_conc_chl : Layer :=
  { identifier := "demo-1w.conc_chl"
  , title := "demo-1w/Chlorophyll concentration"
  , abstract := ""
  , wgs84LowerCorner := "0 50"
  , wgs84UpperCorner := "5 52.5"
  , style := { isDefault := "true", identifier := "Default" }
  , format := "image/png"
  , tileMatrixSetLinks := ["WorldCRS84Quad"]
  , resourceURL :=
      { format := "image/png"
      , resourceType := "tile"
      , template := "http://bibo/wmts/1.0.0/tile/demo-1w/conc_chl/WorldCRS84Quad/{TileMatrix}/{TileRow}/{TileCol}.png" }
  , dimensions :=
      [ { identifier := "time"
        , title := "time"
        , uom := "ISO8601"
        , defaultValue := "current"
        , current := "true"
        , values := demo1wTimeValues } ] }

/-- The Layer element with identifier `demo-1w.conc_chl_stdev`. -/
def layer_demo_1w_conc_chl_stdev : Layer :=
  { identifier := "demo-1w.conc_chl_stdev"
  , title := "demo-1w/Chlorophyll concentration"
  , abstract := ""
  , wgs84LowerCorner := "0 50"
  , wgs84UpperCorner := "5 52.5"
  , style := { isDefault := "true", identifier := "Default" }
  , format := "image/png"
  , tileMatrixSetLinks := ["WorldCRS84Quad"]
  , resourceURL :=
      { format := "image/png"
      , resourceType := "tile"
      , template := "http://bibo/wmts/1.0.0/tile/demo-1w/conc_chl_stdev/WorldCRS84Quad/{TileMatrix}/{TileRow}/{TileCol}.png" }
  , dimensions :=
      [ { identifier := "time"
        , title := "time"
        , uom := "ISO8601"
        , defaultValue := "current"
        , current := "true"
        , values := demo1wTimeValues } ] }

/-- The Layer element with identifier `demo-1w.conc_tsm`. -/
def layer_demo_1w_conc_tsm : Layer :=
  { identifier := "demo-1w.conc_tsm"
  , title := "demo-1w/Total suspended matter dry weight concentration"
  , abstract := ""
  , wgs84LowerCorner := "0 50"
  , wgs84UpperCorner := "5 52.5"
  , style := { isDefault := "true", identifier := "Default" }
  , format := "image/png"
  , tileMatrixSetLinks := ["WorldCRS84Quad"]
  , resourceURL :=
      { format := "image/png"
      , resourceType := "tile"
      , template := "http://bibo/wmts/1.0.0/tile/demo-1w/conc_tsm/WorldCRS84Quad/{TileMatrix}/{TileRow}/{TileCol}.png" }
  , dimensions :=
      [ { identifier := "time"
        , title := "time"
        , uom := "ISO8601"
        , defaultValue := "current"
        , current := "true"
        , values := demo1wTimeValues } ] }

/-- The Layer element with identifier `demo-1w.conc_tsm_stdev`. -/
def layer_demo_1w_conc_tsm_stdev : Layer :=
  { identifier := "demo-1w.conc_tsm_stdev"
  , title := "demo-1w/Total suspended matter dry weight concentration"
  , abstract := ""
  , wgs84LowerCorner := "0 50"
  , wgs84UpperCorner := "5 52.5"
  , style := { isDefault := "true", identifier := "Default" }
  , format := "image/png"
  , tileMatrixSetLinks := ["WorldCRS84Quad"]
  , resourceURL :=
      { format := "image/png"
      , resourceType := "tile"
      , template := "http://bibo/wmts/1.0.0/tile/demo-1w/conc_tsm_stdev/WorldCRS84Quad/{TileMatrix}/{TileRow}/{TileCol}.png" }
  , dimensions :=
      [ { identifier := "time"
        , title := "time"
        , uom := "ISO8601"
        , defaultValue := "current"
        , current := "true"
        , values := demo1wTimeValues } ] }

/-- The Layer element with identifier `demo-1w.kd489`. -/
def layer_demo_1w_kd489 : Layer :=
  { identifier := "demo-1w.kd489"
  , title := "demo-1w/Irradiance attenuation coefficient at 489 nm"
  , abstract := ""
  , wgs84LowerCorner := "0 50"
  , wgs84UpperCorner := "5 52.5"
  , style := { isDefault := "true", identifier := "Default" }
  , format := "image/png"
  , tileMatrixSetLinks := ["WorldCRS84Quad"]
  , resourceURL :=
      { format := "image/png"
      , resourceType := "tile"
      , template := "http://bibo/wmts/1.0.0/tile/demo-1w/kd489/WorldCRS84Quad/{TileMatrix}/{TileRow}/{TileCol}.png" }
  , dimensions :=
      [ { identifier := "time"
        , title := "time"
        , uom := "ISO8601"
        , defaultValue := "current"
        , current := "true"
        , values := demo1wTimeValues } ] }

/-- The Layer element with identifier `demo-1w.kd489_stdev`. -/
def layer_demo_1w_kd489_stdev : Layer :=
  { identifier := "demo-1w.kd489_stdev"
  , title := "demo-1w/Irradiance attenuation coefficient at 489 nm"
  , abstract := ""
  , wgs84LowerCorner := "0 50"
  , wgs84UpperCorner := "5 52.5"
  , style := { isDefault := "true", identifier := "Default" }
  , format := "image/png"
  , tileMatrixSetLinks := ["WorldCRS84Quad"]
  , resourceURL :=
      { format := "image/png"
      , resourceType := "tile"
      , template := "http://bibo/wmts/1.0.0/tile/demo-1w/kd489_stdev/WorldCRS84Quad/{TileMatrix}/{TileRow}/{TileCol}.png" }
  , dimensions :=
      [ { identifier := "time"
        , title := "time"
        , uom := "ISO8601"
        , defaultValue := "current"
        , current := "true"
        , values := demo1wTimeValues } ] }

/-- The Layer element with identifier `demo-1w.quality_flags`. -/
def layer_demo_1w_quality_flags : Layer :=
  { identifier := "demo-1w.quality_flags"
  , title := "demo-1w/Classification and quality flags"
  , abstract := ""
  , wgs84LowerCorner := "0 50"
  , wgs84UpperCorner := "5 52.5"
  , style := { isDefault := "true", identifier := "Default" }
  , format := "image/png"
  , tileMatrixSetLinks := ["WorldCRS84Quad"]
  , resourceURL :=
      { format := "image/png"
      , resourceType := "tile"
      , template := "http://bibo/wmts/1.0.0/tile/demo-1w/quality_flags/WorldCRS84Quad/{TileMatrix}/{TileRow}/{TileCol}.png" }
  , dimensions :=
      [ { identifier := "time"
        , title := "time"
        , uom := "ISO8601"
        , defaultValue := "current"
        , current := "true"
        , values := demo1wTimeValues } ] }

/-- The Layer element with identifier `demo-1w.quality_flags_stdev`. -/
def layer_demo_1w_quality_flags_stdev : Layer :=
  { identifier := "demo-1w.quality_flags_stdev"
  , title := "demo-1w/Classification and quality flags"
  , abstract := ""
  , wgs84LowerCorner := "0 50"
  , wgs84UpperCorner := "5 52.5"
  , style := { isDefault := "true", identifier := "Default" }
  , format := "image/png"
  , tileMatrixSetLinks := ["WorldCRS84Quad"]
  , resourceURL :=
      { format := "image/png"
      , resourceType := "tile"
      , template := "http://bibo/wmts/1.0.0/tile/demo-1w/quality_flags_stdev/WorldCRS84Quad/{TileMatrix}/{TileRow}/{TileCol}.png" }
  , dimensions :=
      [ { identifier := "time"
        , title := "time"
        , uom := "ISO8601"
        , defaultValue := "current"
        , current := "true"
        , values := demo1wTimeValues } ] }

/-- The layers of Contents, in document order (fixture lines 81-495). -/
def contentsLayers : List Layer :=
  [ layer_demo_c2rcc_flags
  , layer_demo_conc_chl
  , layer_demo_conc_tsm
  , layer_demo_kd489
  , layer_demo_quality_flags
  , layer_demo_1w_c2rcc_flags
  , layer_demo_1w_c2rcc_flags_stdev
  , layer_demo_1w_conc_chl
  , layer_demo_1w_conc_chl_stdev
  , layer_demo_1w_conc_tsm
  , layer_demo_1w_conc_tsm_stdev
  , layer_demo_1w_kd489
  , layer_demo_1w_kd489_stdev
  , layer_demo_1w_quality_flags
  , layer_demo_1w_quality_flags_stdev ]

/-! ## The embedded fixture data: themes, service metadata, root -/

/-- The top-level Theme with identifier `demo`. -/
def theme_demo : Theme :=
  { identifier := "demo"
  , title := "xcube-server Demonstration L2C Cube"
  , abstract := ""
  , subThemes :=
      [ { identifier := "demo.c2rcc_flags"
        , title := "demo/C2RCC quality flags"
        , abstract := ""
        , layerRef := "demo.c2rcc_flags" }
      , { identifier := "demo.conc_chl"
        , title := "demo/Chlorophyll concentration"
        , abstract := ""
        , layerRef := "demo.conc_chl" }
      , { identifier := "demo.conc_tsm"
        , title := "demo/Total suspended matter dry weight concentration"
        , abstract := ""
        , layerRef := "demo.conc_tsm" }
      , { identifier := "demo.kd489"
        , title := "demo/Irradiance attenuation coefficient at 489 nm"
        , abstract := ""
        , layerRef := "demo.kd489" }
      , { identifier := "demo.quality_flags"
        , title := "demo/Classification and quality flags"
        , abstract := ""
        , layerRef := "demo.quality_flags" } ] }

/-- The top-level Theme with identifier `demo-1w`. -/
def theme_demo_1w : Theme :=
  { identifier := "demo-1w"
  , title := "xcube-server Demonstration L3 Cube"
  , abstract := ""
  , subThemes :=
      [ { identifier := "demo-1w.c2rcc_flags"
        , title := "demo-1w/C2RCC quality flags"
        , abstract := ""
        , layerRef := "demo-1w.c2rcc_flags" }
      , { identifier := "demo-1w.c2rcc_flags_stdev"
        , title := "demo-1w/C2RCC quality flags"
        , abstract := ""
        , layerRef := "demo-1w.c2rcc_flags_stdev" }
      , { identifier := "demo-1w.conc_chl"
        , title := "demo-1w/Chlorophyll concentration"
        , abstract := ""
        , layerRef := "demo-1w.conc_chl" }
      , { identifier := "demo-1w.conc_chl_stdev"
        , title := "demo-1w/Chlorophyll concentration"
        , abstract := ""
        , layerRef := "demo-1w.conc_chl_stdev" }
      , { identifier := "demo-1w.conc_tsm"
        , title := "demo-1w/Total suspended matter dry weight concentration"
        , abstract := ""
        , layerRef := "demo-1w.conc_tsm" }
      , { identifier := "demo-1w.conc_tsm_stdev"
        , title := "demo-1w/Total suspended matter dry weight concentration"
        , abstract := ""
        , layerRef := "demo-1w.conc_tsm_stdev" }
      , { identifier := "demo-1w.kd489"
        , title := "demo-1w/Irradiance attenuation coefficient at 489 nm"
        , abstract := ""
        , layerRef := "demo-1w.kd489" }
      , { identifier := "demo-1w.kd489_stdev"
        , title := "demo-1w/Irradiance attenuation coefficient at 489 nm"
        , abstract := ""
        , layerRef := "demo-1w.kd489_stdev" }
      , { identifier := "demo-1w.quality_flags"
        , title := "demo-1w/Classification and quality flags"
        , abstract := ""
        , layerRef := "demo-1w.quality_flags" }
      , { identifier := "demo-1w.quality_flags_stdev"
        , title := "demo-1w/Classification and quality flags"
        , abstract := ""
        , layerRef := "demo-1w.quality_flags_stdev" } ] }

/-- The Themes element (fixture lines 534-635). -/
def wmtsThemes : List Theme :=
  [ theme_demo, theme_demo_1w ]

/-- The ows:ServiceIdentification element (fixture lines 3-15). -/
def wmtsServiceIdentification : ServiceIdentification :=
  { title := "xcube WMTS"
  , abstract := "Web Map Tile Service (WMTS) for xcube-conformant data cubes"
  , keywords := ["tile", "tile matrix set", "map"]
  , serviceType := "OGC WMTS"
  , serviceTypeVersion := "1.0.0"
  , fees := "none"
  , accessConstraints := "none" }

/-- The ows:ServiceProvider element (fixture lines 16-37). -/
def wmtsServiceProvider : ServiceProvider :=
  { providerName := "Brockmann Consult GmbH"
  , providerSiteHref := "https://www.brockmann-consult.de"
  , individualName := "Norman Fomferra"
  , positionName := "Senior Software Engineer"
  , phoneVoice := "+49 4152 889 303"
  , phoneFacsimile := "+49 4152 889 330"
  , deliveryPoint := "HZG / GITZ"
  , city := "Geesthacht"
  , administrativeArea := "Herzogtum Lauenburg"
  , postalCode := "21502"
  , country := "Germany"
  , electronicMailAddress := "norman.fomferra@brockmann-consult.de" }

/-- The ows:OperationsMetadata element (fixture lines 38-79). -/
def wmtsOperationsMetadata : List Operation :=
  [ { name := "GetCapabilities"
    , gets :=
        [ { href := "http://bibo/wmts/kvp?", getEncoding := "KVP" }
        , { href := "http://bibo/wmts/1.0.0/WorldCRS84Quad/WMTSCapabilities.xml", getEncoding := "REST" } ] }
  , { name := "GetTile"
    , gets :=
        [ { href := "http://bibo/wmts/kvp?", getEncoding := "KVP" }
        , { href := "http://bibo/wmts/1.0.0/", getEncoding := "REST" } ] } ]

/-- The whole WMTS capabilities fixture document (fixture lines 1-637):
the root Capabilities element, its attributes and all its children. -/
def wmtsCapabilitiesCRS84 : Capabilities :=
  { xmlnsDefault := "http://www.opengis.net/wmts/1.0"
  , xmlnsOws := "http://www.opengis.net/ows/1.1"
  , xmlnsXlink := "http://www.w3.org/1999/xlink"
  , xmlnsXsi := "http://www.w3.org/2001/XMLSchema-instance"
  , xsiSchemaLocation := "http://www.opengis.net/wmts/1.0 http://schemas.opengis.net/wmts/1.0.0/wmtsGetCapabilities_response.xsd"
  , version := "1.0.0"
  , serviceIdentification := wmtsServiceIdentification
  , serviceProvider := wmtsServiceProvider
  , operationsMetadata := wmtsOperationsMetadata
  , contents := { layers := contentsLayers, tileMatrixSets := [worldCRS84QuadTMS] }
  , themes := wmtsThemes
  , serviceMetadataURLHref := "http://bibo/wmts/1.0.0/WorldCRS84Quad/WMTSCapabilities.xml" }

/-! ## Data model of the notebook -/

/-- The type of a notebook cell. -/
inductive CellType where
  | markdown
  | code
  deriving DecidableEq

/-- A notebook cell: its type and its verbatim source lines. -/
structure NotebookCell where
  cellType : CellType
  sourceLines : List String
  deriving DecidableEq

/-- A Jupyter notebook: its cells in order. -/
structure Notebook where
  cells : List NotebookCell
  deriving DecidableEq


/-- The notebook `8_azure_blob_filesystem.ipynb`: its cells in order,
each with its verbatim source lines (trailing newlines stripped). -/
def azureBlobNotebook : Notebook :=
  { cells :=
      [ { cellType := CellType.markdown
        , sourceLines :=
        [ "# xcube Azure Data Store Access"
        , "Below is an example code on how to create a new data store instance and directly access files from an Azure Blob Storage" ] }
      , { cellType := CellType.code
        , sourceLines :=
        [ "from xcube.core.store import new_data_store" ] }
      , { cellType := CellType.markdown
        , sourceLines :=
        [ "Point the root to the azure blob container. Use the account_name with account_key or just the connection_string a data store params. "
        , ""
        , "\x27Anon\x27 must be set to \x27True\x27 if the container in not publicly acessible." ] }
      , { cellType := CellType.code
        , sourceLines :=
        [ "cubes = \"cube-container\"  # path to root directory"
        , "data_store_params = \x7b"
        , "    \"anon\": True,"
        , "    \"account_name\": \"azureblob\","
        , "    \"account_key\": \"dskf/dslfkj......\","
        , "\x7d  # store access params" ] }
      , { cellType := CellType.markdown
        , sourceLines :=
        [ "Use \x27abfs\x27 as store_id or filesystem protocol for azure blob Gen2 storage to access and list files in the root directory" ] }
      , { cellType := CellType.code
        , sourceLines :=
        [ "az_store = new_data_store(\"abfs\", root=cubes, storage_options=data_store_params)"
        , ""
        , "[f for f in az_store.get_data_ids()]" ] } ] }

/-- The conda environment manifest: the first document of `environment.yml`,
line by line, verbatim. -/
def condaEnvLines : List String :=
  [ "name: xcube"
  , "channels:"
  , "  - conda-forge"
  , "dependencies:"
  , "  # Python"
  , "  - python >=3.9"
  , "  # Required"
  , "  - affine >=2.2"
  , "  - botocore >=1.34.51"
  , "  - cftime >=1.6.3"
  , "  - click >=8.0"
  , "  - cmocean >=2.0"
  , "  - dask >=2021.6"
  , "  - dask-image >=0.6"
  , "  - deprecated >=1.2"
  , "  - distributed >=2021.6"
  , "  - fiona >=1.8"
  , "  - fsspec >=2021.6"
  , "  - gdal >=3.0"
  , "  - geopandas >=0.8"
  , "  - jdcal >=1.4"
  , "  - jsonschema >=3.2"
  , "  - mashumaro"
  , "  - matplotlib-base >=3.8.3"
  , "  - netcdf4 >=1.5"
  , "  - numba >=0.52"
  , "  - numcodecs >=0.12.1"
  , "  - numpy >=1.16"
  , "  - pandas >=1.3"
  , "  - pillow >=6.0"
  , "  - pyjwt >=1.7"
  , "  - pyproj >=3.0"
  , "  - pyyaml >=5.4"
  , "  - rasterio >=1.2"
  , "  - requests >=2.25"
  , "  - rfc3339-validator >=0.1  # for python-jsonschema date-time format validation"
  , "  - rioxarray >=0.11"
  , "  - s3fs >=2021.6"
  , "  - setuptools >=41.0"
  , "  - shapely >=1.6"
  , "  - tornado >=6.0"
  , "  - urllib3 >=1.26"
  , "  - xarray >=2022.6"
  , "  - zarr >=2.11"
  , "  # Testing"
  , "  - flake8 >=3.7"
  , "  - moto >=4"
  , "  - pytest >=4.4"
  , "  - pytest-cov >=2.6"
  , "  - requests-mock >=1.8"
  , "  - werkzeug" ]

/-- The documentation-build pip requirements list that follows the conda
manifest in `environment.yml`, line by line, verbatim. -/
def docsRequirementsLines : List String :=
  [ "#sphinx==4.1.2"
  , "#sphinx_rtd_theme==0.5.2"
  , "#sphinx-argparse==0.3.1"
  , "#sphinx-autodoc-annotation==1.0-1"
  , "#recommonmark==0.7.1"
  , ""
  , "sphinx"
  , "sphinx_rtd_theme"
  , "sphinx-argparse"
  , "sphinx-autodoc-annotation"
  , "sphinx-markdown-tables"
  , "recommonmark"
  , ""
  , "mock"
  , "# listing packages below within autodoc_mock_imports of conf.py"
  , "# seems not to be sufficient:"
  , "fsspec"
  , "geopandas"
  , "jsonschema"
  , "numpy"
  , "pandas"
  , "pyproj"
  , "shapely"
  , "xarray"
  , "zarr" ]

/-! ## String utilities (character-list based, kernel-evaluable) -/

/-- `charsPrefix pat l` : `pat` occurs at the start of `l`. -/
def charsPrefix : List Char → List Char → Bool
  | [], _ => true
  | _ :: _, [] => false
  | a :: as, b :: bs => a == b && charsPrefix as bs

/-- `charsContain pat l` : `pat` occurs as a contiguous run inside `l`. -/
def charsContain (pat : List Char) : List Char → Bool
  | [] => pat.isEmpty
  | c :: rest => charsPrefix pat (c :: rest) || charsContain pat rest

/-- `strContains s pat` : the string `pat` occurs inside the string `s`. -/
def strContains (s pat : String) : Bool :=
  charsContain pat.data s.data

/-- Drop leading space characters. -/
def dropSpaces : List Char → List Char
  | ' ' :: rest => dropSpaces rest
  | l => l

/-- The double-quote character. -/
def doubleQuoteChar : Char := Char.ofNat 34

/-- The closing-brace character. -/
def closeBraceChar : Char := Char.ofNat 125

/-! ## Classification of Python source lines -/

/-- Python statement keywords that open a function/class definition or a
control-flow construct; a code line opening with one of these carries
implementation logic. -/
def pythonImplementationKeywords : List String :=
  [ "def ", "class ", "lambda", "if ", "elif ", "else", "for ", "while ",
    "try", "except", "finally", "with ", "yield", "return", "raise ",
    "async ", "await ", "global ", "nonlocal ", "match " ]

/-- Names of Python standard concurrency modules; an occurrence anywhere in a
line would indicate a concurrency construct. -/
def pythonConcurrencyModuleNames : List String :=
  ["threading", "multiprocessing", "asyncio", "concurrent.futures"]

/-- Does the character list open with any of the given keywords? -/
def startsWithAny (kws : List String) (l : List Char) : Bool :=
  kws.any (fun k => charsPrefix k.data l)

/-- Does the string mention any of the given keywords anywhere? -/
def mentionsAny (kws : List String) (s : String) : Bool :=
  kws.any (fun k => charsContain k.data s.data)

/-- A line of text is an implementation-code line if, after leading spaces,
it opens with a Python definition/control keyword, or if it mentions a
concurrency module. -/
def isImplementationCodeLine (s : String) : Bool :=
  startsWithAny pythonImplementationKeywords (dropSpaces s.data) ||
  mentionsAny pythonConcurrencyModuleNames s

/-- A character that may occur in a Python identifier. -/
def isIdentChar (c : Char) : Bool :=
  c.isAlphanum || c == '_'

/-- After an initial nonempty identifier, the characters ` = ` follow
(the shape of a simple Python assignment statement). -/
def identAssign : List Char → Bool
  | ' ' :: '=' :: ' ' :: _ => true
  | c :: rest => isIdentChar c && identAssign rest
  | [] => false

/-- The declarative statement shapes a notebook code line may take. -/
inductive PyLineKind where
  | blank
  | comment
  | importStmt
  | assignStmt
  | literalContinuation
  | exprStmt
  | other
  deriving DecidableEq

/-- Classify a notebook code line by its statement shape: blank, comment,
import, simple assignment, continuation line of a literal (opening with a
quote or a closing brace), or a bracketed expression statement. Anything
else (in particular any `def`, `class`, loop or branch) is `other`. -/
def pyLineKind (s : String) : PyLineKind :=
  match dropSpaces s.data with
  | [] => PyLineKind.blank
  | c :: cs =>
    if c == '#' then PyLineKind.comment
    else if c == doubleQuoteChar || c == closeBraceChar then
      PyLineKind.literalContinuation
    else if c == '[' then PyLineKind.exprStmt
    else if charsPrefix "from ".data (c :: cs) ||
            charsPrefix "import ".data (c :: cs) then PyLineKind.importStmt
    else if identAssign (c :: cs) then PyLineKind.assignStmt
    else PyLineKind.other

/-- All source lines of the notebook code cells, in order. -/
def notebookCodeLines (nb : Notebook) : List String :=
  ((nb.cells.filter (fun c => decide (c.cellType = CellType.code))).map
    NotebookCell.sourceLines).flatten

/-- Parse a Python `from M import N` statement: the module and the name. -/
def parseFromImport (s : String) : Option (String × String) :=
  let l := dropSpaces s.data
  if charsPrefix "from ".data l then
    let rest := l.drop 5
    let modChars := rest.takeWhile (fun c => isIdentChar c || c == '.')
    let rest2 := rest.drop modChars.length
    if charsPrefix " import ".data rest2 then
      let nameChars := (rest2.drop 8).takeWhile isIdentChar
      if modChars.isEmpty || nameChars.isEmpty then none
      else some (String.mk modChars, String.mk nameChars)
    else none
  else none

/-- All `from ... import ...` statements of the notebook code cells. -/
def notebookImports (nb : Notebook) : List (String × String) :=
  (notebookCodeLines nb).filterMap parseFromImport

/-- The root package of a dotted Python module path. -/
def moduleRootPackage (m : String) : String :=
  String.mk (m.data.takeWhile (fun c => !(c == '.')))

/-- The repository own top-level Python package name, `xcube`: declared by the
environment manifest (`name: xcube`) and used as the import root in the
notebook (`from xcube.core.store import ...`). -/
def repositoryPackageName : String := "xcube"

/-! ## Text values of the capabilities document -/

/-- All element text and attribute values of a `Dimension` element. -/
def LayerDimension.textValues (d : LayerDimension) : List String :=
  [d.identifier, d.title, d.uom, d.defaultValue, d.current] ++ d.values

/-- All element text and attribute values of a `Layer` element. -/
def Layer.textValues (l : Layer) : List String :=
  [l.identifier, l.title, l.abstract, l.wgs84LowerCorner, l.wgs84UpperCorner,
   l.style.isDefault, l.style.identifier, l.format] ++
  l.tileMatrixSetLinks ++
  [l.resourceURL.format, l.resourceURL.resourceType, l.resourceURL.template] ++
  (l.dimensions.map LayerDimension.textValues).flatten

/-- All element text of a `TileMatrix` element that is kept as text. -/
def TileMatrix.textValues (m : TileMatrix) : List String :=
  [m.identifier, m.scaleDenominator, m.topLeftCorner]

/-- All element text and attribute values of a `TileMatrixSet` element. -/
def TileMatrixSet.textValues (t : TileMatrixSet) : List String :=
  [t.identifier, t.title, t.supportedCRS, t.boundingBox.crs,
   t.boundingBox.lowerCorner, t.boundingBox.upperCorner, t.wellKnownScaleSet] ++
  (t.tileMatrices.map TileMatrix.textValues).flatten

/-- All element text of a `Theme` element and its child themes. -/
def Theme.textValues (t : Theme) : List String :=
  [t.identifier, t.title, t.abstract] ++
  (t.subThemes.map (fun s => [s.identifier, s.title, s.abstract, s.layerRef])).flatten

/-- All element text of the `ows:ServiceIdentification` element. -/
def ServiceIdentification.textValues (si : ServiceIdentification) : List String :=
  [si.title, si.abstract] ++ si.keywords ++
  [si.serviceType, si.serviceTypeVersion, si.fees, si.accessConstraints]

/-- All element text and attribute values of the `ows:ServiceProvider`. -/
def ServiceProvider.textValues (sp : ServiceProvider) : List String :=
  [sp.providerName, sp.providerSiteHref, sp.individualName, sp.positionName,
   sp.phoneVoice, sp.phoneFacsimile, sp.deliveryPoint, sp.city,
   sp.administrativeArea, sp.postalCode, sp.country, sp.electronicMailAddress]

/-- All element text and attribute values of an `ows:Operation` element. -/
def Operation.textValues (op : Operation) : List String :=
  op.name :: (op.gets.map (fun g => [g.href, g.getEncoding])).flatten

/-- Every element text and attribute value of the whole capabilities
document, collected from the structured embedding. -/
def Capabilities.textValues (c : Capabilities) : List String :=
  [c.xmlnsDefault, c.xmlnsOws, c.xmlnsXlink, c.xmlnsXsi,
   c.xsiSchemaLocation, c.version] ++
  c.serviceIdentification.textValues ++
  c.serviceProvider.textValues ++
  (c.operationsMetadata.map Operation.textValues).flatten ++
  (c.contents.layers.map Layer.textValues).flatten ++
  (c.contents.tileMatrixSets.map TileMatrixSet.textValues).flatten ++
  (c.themes.map Theme.textValues).flatten ++
  [c.serviceMetadataURLHref]

/-! ## Parsing the environment manifest -/

/-- A package requirement: a package name with an optional version
constraint. -/
structure PackageReq where
  name : String
  constraint : Option String
  deriving DecidableEq

/-- A character that may occur in a conda or pip package name. -/
def isPkgNameChar (c : Char) : Bool :=
  c.isAlphanum || c == '-' || c == '_' || c == '.'

/-- A character that may open a version constraint operator. -/
def isVersionOpChar (c : Char) : Bool :=
  c == '>' || c == '<' || c == '=' || c == '!'

/-- A character that may occur in a version number. -/
def isVersionChar (c : Char) : Bool :=
  c.isAlphanum || c == '.' || c == '-' || c == '*'

/-- Parse one dependency list item (the text after the leading `- `): a
package name, optionally followed by a version constraint, optionally
followed by a trailing `#` comment. -/
def parsePackageReq (item : List Char) : Option PackageReq :=
  let nameChars := item.takeWhile isPkgNameChar
  let rest := dropSpaces (item.drop nameChars.length)
  if nameChars.isEmpty then none
  else if rest.isEmpty || rest.headD ' ' == '#' then
    some { name := String.mk nameChars, constraint := none }
  else
    let opChars := rest.takeWhile isVersionOpChar
    let verChars := (rest.drop opChars.length).takeWhile isVersionChar
    let tail := dropSpaces (rest.drop (opChars.length + verChars.length))
    if opChars.isEmpty || verChars.isEmpty then none
    else if tail.isEmpty || tail.headD ' ' == '#' then
      some { name := String.mk nameChars
           , constraint := some (String.mk (opChars ++ verChars)) }
    else none

/-- The parsed shape of the conda environment manifest: a name, a channel
list, and a list of package requirements. -/
structure CondaEnv where
  name : String
  channels : List String
  dependencies : List PackageReq
  deriving DecidableEq

/-- Parse the lines of the `dependencies:` section: every significant line
must be a `- ` list item that parses as a package requirement; comment and
blank lines are skipped. -/
def parseDependencyLines : List String → Option (List PackageReq)
  | [] => some []
  | line :: rest =>
    match dropSpaces line.data with
    | [] => parseDependencyLines rest
    | c :: cs =>
      if c == '#' then parseDependencyLines rest
      else if c == '-' && charsPrefix [' '] cs then
        match parsePackageReq (dropSpaces cs), parseDependencyLines rest with
        | some req, some reqs => some (req :: reqs)
        | _, _ => none
      else none

/-- Parse the items of the `channels:` section, up to the `dependencies:`
header; returns the channels and the remaining lines. -/
def parseChannelLines : List String → Option (List String × List String)
  | [] => none
  | line :: rest =>
    let l := dropSpaces line.data
    if l.isEmpty then parseChannelLines rest
    else if l == "dependencies:".data then some ([], rest)
    else if l.headD ' ' == '#' then parseChannelLines rest
    else if charsPrefix "- ".data l then
      match parseChannelLines rest with
      | some (chs, rem) => some (String.mk (dropSpaces (l.drop 2)) :: chs, rem)
      | none => none
    else none

/-- Parse a conda environment manifest: a `name:` line, a `channels:` section
and a `dependencies:` section of package requirements. -/
def parseCondaEnv (lines : List String) : Option CondaEnv :=
  match lines with
  | [] => none
  | nameLine :: rest =>
    if charsPrefix "name: ".data nameLine.data then
      match rest with
      | chHeader :: rest2 =>
        if dropSpaces chHeader.data == "channels:".data then
          match parseChannelLines rest2 with
          | some (chs, rem) =>
            match parseDependencyLines rem with
            | some reqs =>
              some { name := String.mk (nameLine.data.drop 6)
                   , channels := chs
                   , dependencies := reqs }
            | none => none
          | none => none
        else none
      | [] => none
    else none

/-- A documentation requirements line is declarative: blank, a `#` comment,
or a bare package name. -/
def isDocsRequirementLine (s : String) : Bool :=
  let l := dropSpaces s.data
  l.isEmpty || l.headD ' ' == '#' || (!l.isEmpty && l.all isPkgNameChar)

/-! ## Derived views used by the claims -/

/-- The identifiers of the layers of a `Contents` element, in order. -/
def layerIdentifiers (c : Contents) : List String :=
  c.layers.map Layer.identifier

/-- The `LayerRef` values of all leaf (child) themes, in document order. -/
def leafThemeLayerRefs (ts : List Theme) : List String :=
  (ts.map (fun t => t.subThemes.map SubTheme.layerRef)).flatten

/-- The parsed conda environment manifest of `environment.yml`. -/
def condaEnvParsed : Option CondaEnv :=
  parseCondaEnv condaEnvLines

/-! ## The claims -/

/-- C1: No artifact of the excerpt contains implementation source code of the
repository. Every code line of the notebook has a declarative statement shape
(blank, comment, import, simple assignment, literal continuation or a
bracketed expression) and carries no Python definition, control-flow or
concurrency construct; every element text and attribute value of the WMTS
capabilities fixture is likewise free of such constructs; and so is every
line of the environment manifest and the documentation requirements list. -/
theorem C1_excerpt_contains_no_implementation_code :
    (notebookCodeLines azureBlobNotebook).all
        (fun line => !(decide (pyLineKind line = PyLineKind.other)) &&
                     !(isImplementationCodeLine line)) = true ∧
    wmtsCapabilitiesCRS84.textValues.all
        (fun s => !(isImplementationCodeLine s)) = true ∧
    (condaEnvLines ++ docsRequirementsLines).all
        (fun line => !(isImplementationCodeLine line)) = true := by
  decide

/-- C2 counterexample: the claim that every API the notebook imports to open
the data store comes from a third-party library, not from this repository,
is false: the list of `from ... import ...` statements of the notebook is not
all third-party, because the single import draws `new_data_store` from the
module `xcube.core.store`, whose root package is `xcube`, the repository's
own package. -/
theorem C2_counterexample_import_is_not_third_party :
    (notebookImports azureBlobNotebook).all
        (fun p => !(decide (moduleRootPackage p.1 = repositoryPackageName)))
      = false := by
  decide

/-- C2 (amended): the notebook's code cells import exactly one function,
`new_data_store` from the module `xcube.core.store`, whose root package is
the repository's own package `xcube`; the store it opens is then used through
its `get_data_ids` method; the third-party filesystem abstraction enters
only indirectly, through the filesystem-protocol string `abfs` passed to
`new_data_store` as the store identifier. -/
theorem C2_amended_notebook_invokes_repository_api :
    notebookImports azureBlobNotebook = [("xcube.core.store", "new_data_store")] ∧
    moduleRootPackage "xcube.core.store" = repositoryPackageName ∧
    (notebookCodeLines azureBlobNotebook).any
        (fun l => strContains l "new_data_store(\"abfs\"") = true ∧
    (notebookCodeLines azureBlobNotebook).any
        (fun l => strContains l "az_store.get_data_ids()") = true := by
  decide

/-- C3: the fixture's `Contents` element contains at least one `Layer` and at
least one `TileMatrixSet`, and the document contains a `Themes` element with
at least one `Theme`. -/
theorem C3_fixture_describes_layers_tms_and_themes :
    0 < wmtsCapabilitiesCRS84.contents.layers.length ∧
    0 < wmtsCapabilitiesCRS84.contents.tileMatrixSets.length ∧
    0 < wmtsCapabilitiesCRS84.themes.length := by
  decide

/-- C4: the fixture follows the OGC WMTS capabilities schema: the root
`Capabilities` element carries the default namespace
`http://www.opengis.net/wmts/1.0`, the version attribute `1.0.0`, a schema
location naming `wmtsGetCapabilities_response.xsd`, and states ServiceType
`OGC WMTS` with ServiceTypeVersion `1.0.0`. -/
theorem C4_fixture_follows_wmts_schema :
    wmtsCapabilitiesCRS84.xmlnsDefault = "http://www.opengis.net/wmts/1.0" ∧
    wmtsCapabilitiesCRS84.version = "1.0.0" ∧
    strContains wmtsCapabilitiesCRS84.xsiSchemaLocation
        "wmtsGetCapabilities_response.xsd" = true ∧
    wmtsCapabilitiesCRS84.serviceIdentification.serviceType = "OGC WMTS" ∧
    wmtsCapabilitiesCRS84.serviceIdentification.serviceTypeVersion = "1.0.0" := by
  decide

/-- C5: the environment file is purely a dependency declaration: the conda
manifest parses as a name (`xcube`), a channel list (`conda-forge`) and 44
package requirements, each a package name with an optional version
constraint; every line of the documentation requirements list is blank, a
comment, or a bare package name; and no line of either part is executable
code. -/
theorem C5_environment_file_is_dependency_declaration :
    condaEnvParsed.map CondaEnv.name = some "xcube" ∧
    condaEnvParsed.map CondaEnv.channels = some ["conda-forge"] ∧
    condaEnvParsed.map (fun e => e.dependencies.length) = some 44 ∧
    condaEnvParsed.map (fun e =>
        e.dependencies.all (fun r => !(decide (r.name = "")))) = some true ∧
    docsRequirementsLines.all isDocsRequirementLine = true ∧
    (condaEnvLines ++ docsRequirementsLines).all
        (fun line => !(isImplementationCodeLine line)) = true := by
  decide

/-- C7: referential integrity of tile matrix set links: every layer has
exactly the one link `WorldCRS84Quad`, the `Contents` define exactly one
`TileMatrixSet` whose identifier is `WorldCRS84Quad`, and every layer's
`ResourceURL` template contains the path segment `WorldCRS84Quad`. -/
theorem C7_tile_matrix_set_referential_integrity :
    wmtsCapabilitiesCRS84.contents.layers.all
        (fun l => decide (l.tileMatrixSetLinks = ["WorldCRS84Quad"])) = true ∧
    wmtsCapabilitiesCRS84.contents.tileMatrixSets.map TileMatrixSet.identifier
      = ["WorldCRS84Quad"] ∧
    wmtsCapabilitiesCRS84.contents.layers.all
        (fun l => strContains l.resourceURL.template "/WorldCRS84Quad/") = true := by
  decide

/-- C8: theme/layer cross-reference bijection: there are 15 layer
identifiers; every `LayerRef` of a leaf theme matches exactly one layer
identifier; every layer identifier occurs as the `LayerRef` of exactly one
leaf theme; and each leaf theme's own identifier equals its `LayerRef`. -/
theorem C8_theme_layer_cross_reference_bijection :
    (layerIdentifiers wmtsCapabilitiesCRS84.contents).length = 15 ∧
    (leafThemeLayerRefs wmtsCapabilitiesCRS84.themes).all
        (fun r => decide
          ((layerIdentifiers wmtsCapabilitiesCRS84.contents).count r = 1)) = true ∧
    (layerIdentifiers wmtsCapabilitiesCRS84.contents).all
        (fun i => decide
          ((leafThemeLayerRefs wmtsCapabilitiesCRS84.themes).count i = 1)) = true ∧
    wmtsCapabilitiesCRS84.themes.all
        (fun t => t.subThemes.all
          (fun s => decide (s.identifier = s.layerRef))) = true := by
  decide

/-- C9: tile matrix pyramid arithmetic: the `WorldCRS84Quad` tile matrix set
(the document's only one) has exactly the three levels `7`, `8`, `9`; every
level has 256 x 256 tiles, top-left corner `-180 90`, and a matrix width
equal to twice its matrix height; and from each level to the next both the
matrix width (256, 512, 1024) and the matrix height (128, 256, 512) exactly
double. -/
theorem C9_tile_matrix_pyramid_arithmetic :
    wmtsCapabilitiesCRS84.contents.tileMatrixSets = [worldCRS84QuadTMS] ∧
    worldCRS84QuadTMS.tileMatrices.length = 3 ∧
    worldCRS84QuadTMS.tileMatrices.map TileMatrix.identifier = ["7", "8", "9"] ∧
    worldCRS84QuadTMS.tileMatrices.all
        (fun m => decide (m.tileWidth = 256 ∧ m.tileHeight = 256 ∧
          m.topLeftCorner = "-180 90" ∧
          m.matrixWidth = 2 * m.matrixHeight)) = true ∧
    worldCRS84QuadTMS.tileMatrices.map TileMatrix.matrixWidth = [256, 512, 1024] ∧
    worldCRS84QuadTMS.tileMatrices.map TileMatrix.matrixHeight = [128, 256, 512] ∧
    (worldCRS84QuadTMS.tileMatrices.zip worldCRS84QuadTMS.tileMatrices.tail).all
        (fun p => decide (p.2.matrixWidth = 2 * p.1.matrixWidth ∧
          p.2.matrixHeight = 2 * p.1.matrixHeight)) = true := by
  decide
